import Mathlib

/-!
Shallow embedding of `rpy2_R6/R6.py` (the rpy2 R6 binding core): runtime
synthesis of Python classes mirroring R6 class generators, the metaclass
attribute-injection protocol, and the static/dynamic class-identity caches.

Python dicts are modelled as association lists with Python's update
semantics (`dinsert` replaces in place or appends); mutation of the
module-level `_CLASSMAP` is modelled by explicit state passing; Python
exceptions are modelled with `Except PyErr`.
-/

namespace RpyR6

/-- Python exceptions that the embedded code can raise. -/
inductive PyErr where
| valueError
| typeError
| assertionError
| keyError
deriving DecidableEq

/-- A value of a `__DEFAULT_ATTRS__` table: `None` in the Python source is
`plain` (plain forwarding via `dollar_getter`), `property` is `prop`
(the forwarder is wrapped in a Python property). -/
inductive Wrapper where
| plain
| prop
deriving DecidableEq

/-- R SEXP type tags (`rpy2.rinterface.RTYPES`); only `ENVSXP` is
distinguished by the source. -/
inductive RType where
| envsxp
| othersxp (code : Nat)
deriving DecidableEq

/-- An R value as observed through the `$` accessor for `classname`:
either R `NULL` or a character vector. -/
inductive RValue where
| null
| strVec (xs : List String)
deriving DecidableEq

/-- Result of `_classname`: either the R `NULL` object passed through
unchanged, or the single unwrapped string. -/
inductive RName where
| null
| str (s : String)
deriving DecidableEq

/-- The observable surface of a foreign R handle used by the source:
its `rid` (identity / cache key), its SEXP type, its R class vector, and
the attributes fetched via `$`: `classname`, `public_methods$names` and
`public_fields$names` (`none` models R `NULL`). -/
structure Sexp where
  rid : Nat
  rtypeof : RType
  rclass : List String
  classname : RValue
  public_methods_names : Option (List String)
  public_fields_names : Option (List String)
deriving DecidableEq

/-- A Python attribute value as stored in a class namespace. `pyNone` is
`None`; `obj` is an opaque explicitly-declared value; `table` is a
`__DEFAULT_ATTRS__` dict; `rsexp` is a stored R handle; `plainGetter name`
is the closure `dollar_getter(name)`; `propGetter name` is
`property(dollar_getter(name))`; `pyFunc` is a named plain function. -/
inductive PyVal where
| pyNone
| obj (n : Nat)
| str (s : String)
| table (t : List (String × Wrapper))
| rsexp (g : Sexp)
| plainGetter (name : String)
| propGetter (name : String)
| pyFunc (name : String)
deriving DecidableEq

/-- A Python type object: name, base classes (in order), and its own
attribute dictionary. -/
inductive PyType where
| mk (name : String) (bases : List PyType) (attrs : List (String × PyVal))

/-- The name of a Python type. -/
def PyType.tyname : PyType → String
| .mk n _ _ => n

/-- The direct bases of a Python type. -/
def PyType.tybases : PyType → List PyType
| .mk _ b _ => b

/-- The own attribute dictionary of a Python type. -/
def PyType.tyattrs : PyType → List (String × PyVal)
| .mk _ _ a => a

/-- Python dict lookup `d.get(k)` on an association list. -/
def dget {κ α : Type} [DecidableEq κ] : List (κ × α) → κ → Option α
| [], _ => none
| (k', v) :: rest, k => if k' = k then some v else dget rest k

/-- Python dict assignment `d[k] = v`: replace in place if the key is
present, else append (insertion order is preserved, as for Python dicts). -/
def dinsert {κ α : Type} [DecidableEq κ] : List (κ × α) → κ → α → List (κ × α)
| [], k, v => [(k, v)]
| (k', v') :: rest, k, v =>
  if k' = k then (k', v) :: rest else (k', v') :: dinsert rest k v

/-- Python `d.update(items)`: assign each pair in order. -/
def dupdate {κ α : Type} [DecidableEq κ] (d : List (κ × α)) (items : List (κ × α)) :
    List (κ × α) :=
  items.foldl (fun a kv => dinsert a kv.1 kv.2) d

mutual

/-- Attribute lookup on a type walking its bases depth-first in order
(models `hasattr(b, n)` / `b.n` for the single-inheritance chains built by
this module). -/
def PyType.findAttr : PyType → String → Option PyVal
| .mk _ bases attrs, k =>
  match dget attrs k with
  | some v => some v
  | none => findAttrFirst bases k

/-- Companion of `PyType.findAttr`: the first base (in order) that has the
attribute supplies it. -/
def findAttrFirst : List PyType → String → Option PyVal
| [], _ => none
| b :: rest, k =>
  match b.findAttr k with
  | some v => some v
  | none => findAttrFirst rest k

end

/-- `_classname(obj)`: fetch `obj$classname`; if it is not R `NULL`,
assert it has length 1 and unwrap the single string (an AssertionError if
the vector is not of length 1); R `NULL` is returned unchanged. -/
def _classname (obj : Sexp) : Except PyErr RName :=
  match obj.classname with
  | RValue.null => Except.ok RName.null
  | RValue.strVec [x] => Except.ok (RName.str x)
  | RValue.strVec _ => Except.error PyErr.assertionError

/-- String rendering of an `RName` used when formatting the docstring
(`str(rpy2.robjects.NULL)` prints as NULL). -/
def rname_str : RName → String
| RName.null => "NULL"
| RName.str s => s

/-- The docstring text produced by `_build_docstring` for a given
classname (whitespace details of `textwrap.dedent` are immaterial here). -/
def mapped_r6_doc (n : RName) : String :=
  "Mapped R6 class \"" ++ rname_str n ++ "\".\n\n" ++
  "The class is created dynamically from the R6 class definition\nin R.\n"

/-- `_build_docstring(clsgenerator)`: formats the docstring, fetching the
classname again via `_classname` (so its assertion can fail here too). -/
def _build_docstring (g : Sexp) : Except PyErr String := do
  let n ← _classname g
  pure (mapped_r6_doc n)

/-- `_build_attr_dict(clsgenerator)`: start from an empty dict, update
with `(name, None)` for every public method name unless
`public_methods$names` is NULL, then update with `(name, property)` for
every public field name unless `public_fields$names` is NULL. -/
def _build_attr_dict (clsgenerator : Sexp) : List (String × Wrapper) :=
  let res : List (String × Wrapper) := []
  let res := match clsgenerator.public_methods_names with
    | some ns => dupdate res (ns.map (fun x => (x, Wrapper.plain)))
    | none => res
  let res := match clsgenerator.public_fields_names with
    | some ns => dupdate res (ns.map (fun x => (x, Wrapper.prop)))
    | none => res
  res

/-- The forwarding implementation injected for `key`:
`wrapper(dollar_getter(key))` when the table holds `property`, else the
bare closure `dollar_getter(key)` (the `if wrapper:` test in the source,
`None` being falsy and `property` truthy). -/
def forward_for (t : List (String × Wrapper)) (key : String) : PyVal :=
  match dget t key with
  | some Wrapper.prop => PyVal.propGetter key
  | _ => PyVal.plainGetter key

/-- The injection loop of `R6Meta.__new__`: for every key of the table not
already present in `attrs`, store the forwarding implementation. -/
def inject_defaults (t : List (String × Wrapper)) (attrs : List (String × PyVal)) :
    List (String × PyVal) :=
  let attr_names := (t.map Prod.fst).dedup
  let missing := attr_names.filter (fun k => (dget attrs k).isNone)
  missing.foldl (fun a k => dinsert a k (forward_for t k)) attrs

/-- Resolution of the effective `__DEFAULT_ATTRS__` in `R6Meta.__new__`:
`attrs.get('__DEFAULT_ATTRS__', None)`, and if that is `None`, the
attribute of the first direct base that has one (`hasattr` searching each
base's own chain). -/
def first_base_default_attrs : List PyType → Option PyVal
| [] => none
| b :: rest =>
  match b.findAttr "__DEFAULT_ATTRS__" with
  | some v => some v
  | none => first_base_default_attrs rest

/-- The value bound to `default_attrs` after the lookup and the fallback
loop in `R6Meta.__new__`. -/
def eff_default_attrs (bases : List PyType) (attrs : List (String × PyVal)) :
    Option PyVal :=
  match dget attrs "__DEFAULT_ATTRS__" with
  | some PyVal.pyNone => first_base_default_attrs bases
  | some v => some v
  | none => first_base_default_attrs bases

/-- `R6Meta.__new__(meta, name, bases, attrs)`: resolve the effective
table (ValueError when none is found in the chain), assert that the
table's key set has as many elements as the table (AssertionError
otherwise), inject forwarders for the keys not explicitly in `attrs`, and
create the type (`type.__new__` raises a TypeError when `name` is not a
string, e.g. the R `NULL` passed through by `_classname`). A
`__DEFAULT_ATTRS__` value that is neither a dict nor `None` would fail
when iterated; the source never produces one and it is modelled as a
TypeError. -/
def R6Meta_new (name : RName) (bases : List PyType) (attrs : List (String × PyVal)) :
    Except PyErr PyType :=
  match eff_default_attrs bases attrs with
  | none => Except.error PyErr.valueError
  | some PyVal.pyNone => Except.error PyErr.valueError
  | some (PyVal.table t) =>
    if (t.map Prod.fst).dedup.length = t.length then
      match name with
      | RName.str s => Except.ok (PyType.mk s bases (inject_defaults t attrs))
      | RName.null => Except.error PyErr.typeError
    else Except.error PyErr.assertionError
  | some _ => Except.error PyErr.typeError

/-- The class `rpy2.rinterface.sexp.SupportsSEXP`, an external base with
no `__DEFAULT_ATTRS__`. -/
def SupportsSEXP : PyType := PyType.mk "SupportsSEXP" [] []

/-- The class body of `R6`: an empty `__DEFAULT_ATTRS__`,
`__ROBJECT__ = None`, a `__repr__` function and the `__sexp__` property
(the latter two opaque values). -/
def R6_attrs : List (String × PyVal) :=
  [("__DEFAULT_ATTRS__", PyVal.table []),
   ("__ROBJECT__", PyVal.pyNone),
   ("__repr__", PyVal.pyFunc "__repr__"),
   ("__sexp__", PyVal.obj 0)]

/-- The class `R6` (base of every synthesized class and the static-policy
fallback). Its creation goes through `R6Meta` with an empty table, which
injects nothing; `R6_from_meta` below checks this against `R6Meta_new`. -/
def R6 : PyType := PyType.mk "R6" [SupportsSEXP] R6_attrs

/-- `r6_createcls(clsgenerator)`: evaluate `_classname`, build the
attribute table and the docstring, and call the metaclass with base `R6`
and the four explicit class attributes. -/
def r6_createcls (clsgenerator : Sexp) : Except PyErr PyType := do
  let name ← _classname clsgenerator
  let attrd := _build_attr_dict clsgenerator
  let doc ← _build_docstring clsgenerator
  R6Meta_new name [R6]
    [("__DEFAULT_ATTRS__", PyVal.table attrd),
     ("__R6CLASSGENERATOR__", PyVal.rsexp clsgenerator),
     ("__doc__", PyVal.str doc),
     ("__init__", PyVal.pyFunc "_r6__init__")]

/-- The module-level `_CLASSMAP` dict, threaded explicitly. -/
abbrev ClassMap := List (Nat × PyType)

/-- `_static_classmap(clsgenerator)`: `_CLASSMAP.get(clsgenerator.rid, R6)`.
A pure read: it can neither raise nor write the map. -/
def _static_classmap (clsgenerator : Sexp) (classmap : ClassMap) : PyType :=
  (dget classmap clsgenerator.rid).getD R6

/-- `_dynamic_classmap(clsgenerator)`: if the rid is not yet a key, build
the class with `r6_createcls` (propagating its exceptions) and store it;
then return `_CLASSMAP[classid]` (whose KeyError branch is unreachable). -/
def _dynamic_classmap (clsgenerator : Sexp) (classmap : ClassMap) :
    Except PyErr (PyType × ClassMap) :=
  let classid := clsgenerator.rid
  if (dget classmap classid).isNone then
    match r6_createcls clsgenerator with
    | Except.error e => Except.error e
    | Except.ok cls =>
      let classmap2 := dinsert classmap classid cls
      match dget classmap2 classid with
      | some c => Except.ok (c, classmap2)
      | none => Except.error PyErr.keyError
  else
    match dget classmap classid with
    | some c => Except.ok (c, classmap)
    | none => Except.error PyErr.keyError

/-- `is_r6classgenerator(robj)`: an ENVSXP whose R class vector is exactly
`('R6ClassGenerator',)`. -/
def is_r6classgenerator (robj : Sexp) : Bool :=
  decide (robj.rtypeof = RType.envsxp) &&
  decide (robj.rclass = ["R6ClassGenerator"])

/-- Which `__CLASSMAP__` the concrete generator class uses
(`R6StaticClassGenerator` vs `R6DynamicClassGenerator`). -/
inductive CMapPolicy where
| static
| dynamic
deriving DecidableEq

/-- The instance state set up by `R6ClassGenerator.__init__`: the wrapped
R handle (via the `Environment` superclass), `__R6CLASS__`, and the `new`
attribute (always set, since neither the class nor `Environment` defines
`new` beforehand, so `hasattr(self, 'new')` is False). -/
structure R6ClassGeneratorState where
  robj : Sexp
  __R6CLASS__ : PyType
  new : PyType

/-- `R6ClassGenerator.__init__(self, robj)` as run by the two concrete
subclasses: the `Environment` superclass init requires an R environment
(rpy2 raises a ValueError otherwise); then `self.__CLASSMAP__()` resolves
the mapped class and `self.new` is set to it. Note that the source never
calls `is_r6classgenerator` here (its TODO comment admits the missing
check), so no not-a-class-generator error can be raised. -/
def R6ClassGenerator_init (policy : CMapPolicy) (robj : Sexp) (classmap : ClassMap) :
    Except PyErr (R6ClassGeneratorState × ClassMap) :=
  if robj.rtypeof = RType.envsxp then
    match policy with
    | CMapPolicy.static =>
      let r6cls := _static_classmap robj classmap
      Except.ok ({ robj := robj, __R6CLASS__ := r6cls, new := r6cls }, classmap)
    | CMapPolicy.dynamic =>
      match _dynamic_classmap robj classmap with
      | Except.error e => Except.error e
      | Except.ok (r6cls, classmap2) =>
        Except.ok ({ robj := robj, __R6CLASS__ := r6cls, new := r6cls }, classmap2)
  else Except.error PyErr.valueError

/-- The `__DEFAULT_ATTRS__` literal of class `R6ClassGenerator`. -/
def R6ClassGenerator_DEFAULT_ATTRS : List (String × Wrapper) :=
  [("active", Wrapper.plain),
   ("class", Wrapper.prop),
   ("classname", Wrapper.prop),
   ("clone_method", Wrapper.plain),
   ("debug", Wrapper.plain),
   ("debug_names", Wrapper.prop),
   ("get_inherit", Wrapper.plain),
   ("has_private", Wrapper.prop),
   ("inherit", Wrapper.plain),
   ("is_locked", Wrapper.prop),
   ("lock", Wrapper.plain),
   ("lock_class", Wrapper.prop),
   ("lock_objects", Wrapper.prop),
   ("parent_env", Wrapper.prop),
   ("portable", Wrapper.prop),
   ("private_fields", Wrapper.prop),
   ("private_methods", Wrapper.prop),
   ("public_fields", Wrapper.prop),
   ("public_methods", Wrapper.prop),
   ("self", Wrapper.prop),
   ("set", Wrapper.plain),
   ("undebug", Wrapper.plain),
   ("unlock", Wrapper.plain)]

/-- The foreign runtime as observed by an R6 proxy instance: the result of
calling `$new` on a generator handle, and the `__sexp__` content and `$`
attributes of each handle (handles named by ids). -/
structure RState where
  newOf : Nat → List Nat → Nat
  sexpOf : Nat → Nat
  attrOf : Nat → String → Nat

/-- A synthesized-class instance: its entire state is the single owned
handle `__ROBJECT__` set by `_r6__init__`. -/
structure R6Instance where
  __ROBJECT__ : Nat
deriving DecidableEq

/-- `_r6__init__(self, *args)`: call `$new` of the stored class generator
with the arguments and bind the resulting handle to `self.__ROBJECT__`.
No other host-side state is read or written. -/
def _r6__init__ (generatorHandle : Nat) (args : List Nat) (st : RState) : R6Instance :=
  { __ROBJECT__ := st.newOf generatorHandle args }

/-- `dollar_getter(name)` applied to an instance: fetch the named `$`
attribute of the owned handle (read-only). -/
def dollar_getter (name : String) (obj : R6Instance) (st : RState) : Nat :=
  st.attrOf obj.__ROBJECT__ name

/-- The `__sexp__` property getter of class `R6`. -/
def r6_sexp_getter (self : R6Instance) (st : RState) : Nat :=
  st.sexpOf self.__ROBJECT__

/-- The `__sexp__` property setter of class `R6`: it mutates the content
of the owned handle in the foreign state, never the `__ROBJECT__` binding
itself. -/
def r6_sexp_setter (self : R6Instance) (value : Nat) (st : RState) :
    R6Instance × RState :=
  (self,
   { st with sexpOf := fun h => if h = self.__ROBJECT__ then value else st.sexpOf h })

/-- A class-generator handle used as a concrete test vector: the `Stack`
scenario of the spec (methods push/pop, field size). -/
def stack_gen : Sexp :=
  { rid := 5
    rtypeof := RType.envsxp
    rclass := ["R6ClassGenerator"]
    classname := RValue.strVec ["Stack"]
    public_methods_names := some ["push", "pop"]
    public_fields_names := some ["size"] }

/-- The attribute table `_build_attr_dict` produces for `stack_gen`. -/
def stack_table : List (String × Wrapper) :=
  [("push", Wrapper.plain), ("pop", Wrapper.plain), ("size", Wrapper.prop)]

/-- The explicit class attributes `r6_createcls` passes for `stack_gen`. -/
def stack_attrs : List (String × PyVal) :=
  [("__DEFAULT_ATTRS__", PyVal.table stack_table),
   ("__R6CLASSGENERATOR__", PyVal.rsexp stack_gen),
   ("__doc__", PyVal.str (mapped_r6_doc (RName.str "Stack"))),
   ("__init__", PyVal.pyFunc "_r6__init__")]

/-- The class `r6_createcls` synthesizes for `stack_gen`: the explicit
attributes followed by the injected forwarders. -/
def stack_cls : PyType :=
  PyType.mk "Stack" [R6]
    (stack_attrs ++
     [("push", PyVal.plainGetter "push"),
      ("pop", PyVal.plainGetter "pop"),
      ("size", PyVal.propGetter "size")])

/-- A generator handle whose name appears both as a public method and as a
public field. -/
def dual_gen : Sexp :=
  { rid := 9
    rtypeof := RType.envsxp
    rclass := ["R6ClassGenerator"]
    classname := RValue.strVec ["Dual"]
    public_methods_names := some ["touch"]
    public_fields_names := some ["touch"] }

/-- A generator handle reporting no public fields and no public methods. -/
def bare_gen : Sexp :=
  { rid := 3
    rtypeof := RType.envsxp
    rclass := ["R6ClassGenerator"]
    classname := RValue.strVec ["Bare"]
    public_methods_names := none
    public_fields_names := none }

/-- A generator handle whose `classname` is an empty character vector. -/
def g_empty_classname : Sexp :=
  { rid := 11
    rtypeof := RType.envsxp
    rclass := ["R6ClassGenerator"]
    classname := RValue.strVec []
    public_methods_names := none
    public_fields_names := none }

/-- A generator handle whose `classname` is R `NULL`. -/
def g_null_classname : Sexp :=
  { rid := 12
    rtypeof := RType.envsxp
    rclass := ["R6ClassGenerator"]
    classname := RValue.null
    public_methods_names := none
    public_fields_names := none }

/-- A second empty-classname handle (with some public methods) used to
instantiate the amended claim. -/
def g_empty_classname2 : Sexp :=
  { rid := 13
    rtypeof := RType.envsxp
    rclass := ["R6ClassGenerator"]
    classname := RValue.strVec []
    public_methods_names := some ["m"]
    public_fields_names := none }

/-- A second null-classname handle (with some public methods) used to
instantiate the amended claim. -/
def g_null_classname2 : Sexp :=
  { rid := 14
    rtypeof := RType.envsxp
    rclass := ["R6ClassGenerator"]
    classname := RValue.null
    public_methods_names := some ["m"]
    public_fields_names := some ["f"]}

/-- An R environment handle that is not an R6 class generator. -/
def plain_env_handle : Sexp :=
  { rid := 7
    rtypeof := RType.envsxp
    rclass := ["environment"]
    classname := RValue.null
    public_methods_names := none
    public_fields_names := none }

/-! Helper lemmas about the dict model. -/

theorem dget_dinsert_self {κ α : Type} [DecidableEq κ] (d : List (κ × α)) (k : κ) (v : α) :
    dget (dinsert d k v) k = some v := by
  induction d with
  | nil => simp [dinsert, dget]
  | cons p rest ih =>
    obtain ⟨k', v'⟩ := p
    by_cases h : k' = k
    · subst h
      simp [dinsert, dget]
    · simp [dinsert, dget, h, ih]

theorem dget_dinsert_ne {κ α : Type} [DecidableEq κ] (d : List (κ × α)) (k' k : κ) (v : α)
    (hne : k' ≠ k) : dget (dinsert d k' v) k = dget d k := by
  induction d with
  | nil => simp [dinsert, dget, hne]
  | cons p rest ih =>
    obtain ⟨a, b⟩ := p
    by_cases h : a = k'
    · subst h
      simp [dinsert, dget, hne]
    · simp only [dinsert, h, if_false]
      by_cases hak : a = k
      · simp [dget, hak]
      · simp [dget, hak, ih]

theorem mem_keys_dinsert {κ α : Type} [DecidableEq κ] (d : List (κ × α)) (k a : κ) (v : α) :
    a ∈ (dinsert d k v).map Prod.fst ↔ a ∈ d.map Prod.fst ∨ a = k := by
  induction d with
  | nil => simp [dinsert]
  | cons p rest ih =>
    obtain ⟨k', v'⟩ := p
    by_cases h : k' = k
    · subst h
      simp [dinsert]
      tauto
    · simp [dinsert, h, ih]
      tauto

theorem nodup_keys_dinsert {κ α : Type} [DecidableEq κ] (d : List (κ × α)) (k : κ) (v : α)
    (h : (d.map Prod.fst).Nodup) : ((dinsert d k v).map Prod.fst).Nodup := by
  induction d with
  | nil => simp [dinsert]
  | cons p rest ih =>
    obtain ⟨k', v'⟩ := p
    simp only [List.map_cons, List.nodup_cons] at h
    by_cases hk : k' = k
    · subst hk
      simpa [dinsert, List.nodup_cons] using h
    · simp only [dinsert, hk, if_false, List.map_cons, List.nodup_cons]
      refine ⟨?_, ih h.2⟩
      intro hmem
      rcases (mem_keys_dinsert rest k k' v).mp hmem with h1 | h2
      · exact h.1 h1
      · exact hk h2

theorem nodup_keys_dupdate {κ α : Type} [DecidableEq κ] (items d : List (κ × α))
    (h : (d.map Prod.fst).Nodup) : ((dupdate d items).map Prod.fst).Nodup := by
  induction items generalizing d with
  | nil => exact h
  | cons p rest ih =>
    simp only [dupdate, List.foldl_cons]
    exact ih (dinsert d p.1 p.2) (nodup_keys_dinsert d p.1 p.2 h)

theorem dget_keyfold_not_mem {κ α : Type} [DecidableEq κ] (ks : List κ) (f : κ → α)
    (d : List (κ × α)) (k : κ) (h : k ∉ ks) :
    dget (ks.foldl (fun a x => dinsert a x (f x)) d) k = dget d k := by
  induction ks generalizing d with
  | nil => rfl
  | cons x rest ih =>
    simp only [List.foldl_cons]
    rw [ih _ (fun hm => h (List.mem_cons_of_mem x hm)),
        dget_dinsert_ne _ x k (f x) (fun he => h (he ▸ List.mem_cons_self x rest))]

theorem dget_keyfold_mem {κ α : Type} [DecidableEq κ] (ks : List κ) (f : κ → α)
    (d : List (κ × α)) (k : κ) (h : k ∈ ks) :
    dget (ks.foldl (fun a x => dinsert a x (f x)) d) k = some (f k) := by
  induction ks generalizing d with
  | nil => cases h
  | cons x rest ih =>
    simp only [List.foldl_cons]
    by_cases hr : k ∈ rest
    · exact ih _ hr
    · have hx : k = x := by
        rcases List.mem_cons.mp h with h1 | h2
        · exact h1
        · exact absurd h2 hr
      subst hx
      rw [dget_keyfold_not_mem rest f _ k hr, dget_dinsert_self]

theorem dget_constfold_not_mem {κ α : Type} [DecidableEq κ] (ks : List κ) (c : α)
    (d : List (κ × α)) (k : κ) (h : k ∉ ks) :
    dget (ks.foldl (fun a x => dinsert a x c) d) k = dget d k :=
  dget_keyfold_not_mem ks (fun _ => c) d k h

theorem dget_constfold_mem {κ α : Type} [DecidableEq κ] (ks : List κ) (c : α)
    (d : List (κ × α)) (k : κ) (h : k ∈ ks) :
    dget (ks.foldl (fun a x => dinsert a x c) d) k = some c :=
  dget_keyfold_mem ks (fun _ => c) d k h

theorem dget_eq_none_iff {κ α : Type} [DecidableEq κ] (d : List (κ × α)) (k : κ) :
    dget d k = none ↔ k ∉ d.map Prod.fst := by
  induction d with
  | nil => simp [dget]
  | cons p rest ih =>
    obtain ⟨k', v⟩ := p
    simp only [dget, List.map_cons, List.mem_cons]
    by_cases h : k' = k
    · subst h
      simp
    · rw [if_neg h, ih]
      constructor
      · intro hn hc
        rcases hc with hc | hc
        · exact h hc.symm
        · exact hn hc
      · intro hn hc
        exact hn (Or.inr hc)

theorem dupdate_map_const {κ α : Type} [DecidableEq κ] (d : List (κ × α)) (ns : List κ)
    (c : α) :
    dupdate d (ns.map (fun x => (x, c))) = ns.foldl (fun a x => dinsert a x c) d := by
  unfold dupdate
  rw [List.foldl_map]

/-! Helper lemmas about the embedded source functions. -/

theorem inject_defaults_explicit (t : List (String × Wrapper))
    (attrs : List (String × PyVal)) (k : String) (h : (dget attrs k).isSome) :
    dget (inject_defaults t attrs) k = dget attrs k := by
  unfold inject_defaults
  apply dget_keyfold_not_mem
  intro hmem
  have h2 := (List.mem_filter.mp hmem).2
  rw [Option.isNone_iff_eq_none] at h2
  rw [h2] at h
  simp at h

theorem inject_defaults_missing (t : List (String × Wrapper))
    (attrs : List (String × PyVal)) (k : String) (w : Wrapper)
    (ht : dget t k = some w) (ha : dget attrs k = none) :
    dget (inject_defaults t attrs) k = some (forward_for t k) := by
  unfold inject_defaults
  apply dget_keyfold_mem
  apply List.mem_filter.mpr
  refine ⟨List.mem_dedup.mpr ?_, by simp [ha]⟩
  by_contra hc
  rw [(dget_eq_none_iff t k).mpr hc] at ht
  cases ht

theorem inject_defaults_not_in_table (t : List (String × Wrapper))
    (attrs : List (String × PyVal)) (k : String) (ht : dget t k = none) :
    dget (inject_defaults t attrs) k = dget attrs k := by
  unfold inject_defaults
  apply dget_keyfold_not_mem
  intro hmem
  have hk := List.mem_dedup.mp (List.mem_filter.mp hmem).1
  exact absurd hk ((dget_eq_none_iff t k).mp ht)

theorem first_base_default_attrs_append (front rest : List PyType)
    (h : ∀ b ∈ front, b.findAttr "__DEFAULT_ATTRS__" = none) :
    first_base_default_attrs (front ++ rest) = first_base_default_attrs rest := by
  induction front with
  | nil => rfl
  | cons b fs ih =>
    simp only [List.cons_append, first_base_default_attrs,
               h b (List.mem_cons_self b fs)]
    exact ih (fun b2 hb => h b2 (List.mem_cons_of_mem b hb))

theorem first_base_default_attrs_none (bases : List PyType)
    (h : ∀ b ∈ bases, b.findAttr "__DEFAULT_ATTRS__" = none) :
    first_base_default_attrs bases = none := by
  induction bases with
  | nil => rfl
  | cons b rest ih =>
    simp only [first_base_default_attrs, h b (List.mem_cons_self b rest)]
    exact ih (fun b2 hb => h b2 (List.mem_cons_of_mem b hb))

theorem build_attr_dict_keys_nodup (g : Sexp) :
    ((_build_attr_dict g).map Prod.fst).Nodup := by
  obtain ⟨rid, rt, rc, cn, pm, pf⟩ := g
  cases pm with
  | none =>
    cases pf with
    | none => simp [_build_attr_dict]
    | some fs => exact nodup_keys_dupdate _ _ (by simp)
  | some ms =>
    cases pf with
    | none => exact nodup_keys_dupdate _ _ (by simp)
    | some fs => exact nodup_keys_dupdate _ _ (nodup_keys_dupdate _ _ (by simp))

theorem dedup_keys_length (t : List (String × Wrapper)) (h : (t.map Prod.fst).Nodup) :
    (t.map Prod.fst).dedup.length = t.length := by
  rw [List.dedup_eq_self.mpr h, List.length_map]

theorem findAttrFirst_singleton (b : PyType) (k : String) :
    findAttrFirst [b] k = b.findAttr k := by
  cases h : b.findAttr k <;> simp [findAttrFirst, h]

theorem eff_default_attrs_head (bases : List PyType) (t : List (String × Wrapper))
    (rest : List (String × PyVal)) :
    eff_default_attrs bases (("__DEFAULT_ATTRS__", PyVal.table t) :: rest) =
      some (PyVal.table t) := by
  simp [eff_default_attrs, dget]

theorem R6Meta_new_null_name (bases : List PyType) (attrs : List (String × PyVal))
    (t : List (String × Wrapper))
    (heff : eff_default_attrs bases attrs = some (PyVal.table t))
    (hnodup : (t.map Prod.fst).Nodup) :
    R6Meta_new RName.null bases attrs = Except.error PyErr.typeError := by
  simp only [R6Meta_new, heff]
  rw [if_pos (dedup_keys_length t hnodup)]

/-- Fidelity check: the class `R6` as declared in the source really is what
`R6Meta.__new__` produces from its class body (empty table, nothing
injected). -/
theorem R6_from_meta :
    R6Meta_new (RName.str "R6") [SupportsSEXP] R6_attrs = Except.ok R6 := rfl

/-! The claim theorems. -/

/-- C1: under the dynamic cache policy, the first resolution for an unseen
identity invokes `r6_createcls` exactly once and stores its result; a
lookup for a cached identity returns exactly the stored type object with
the cache unchanged — this branch holds with no assumption at all on
`r6_createcls g`, so the builder is not invoked on cache hits; after a
first call stores the type, a second call for any handle sharing the rid
returns that exact type; and no cache entry is ever overwritten, so at
most one local type exists per identity for the lifetime of the cache. -/
theorem c1_dynamic_classmap_builds_once_and_caches :
    (∀ (g : Sexp) (cmap : ClassMap) (t : PyType),
      dget cmap g.rid = some t → _dynamic_classmap g cmap = Except.ok (t, cmap)) ∧
    (∀ (g : Sexp) (cmap : ClassMap) (cls : PyType),
      dget cmap g.rid = none → r6_createcls g = Except.ok cls →
      _dynamic_classmap g cmap = Except.ok (cls, dinsert cmap g.rid cls)) ∧
    (∀ (g g' : Sexp) (cmap : ClassMap) (cls : PyType),
      g'.rid = g.rid →
      _dynamic_classmap g' (dinsert cmap g.rid cls) =
        Except.ok (cls, dinsert cmap g.rid cls)) ∧
    (∀ (g : Sexp) (cmap : ClassMap) (res : PyType) (cmap2 : ClassMap),
      _dynamic_classmap g cmap = Except.ok (res, cmap2) →
      ∀ (i : Nat) (t : PyType), dget cmap i = some t → dget cmap2 i = some t) := by
  refine ⟨?_, ?_, ?_, ?_⟩
  · intro g cmap t h
    simp [_dynamic_classmap, h]
  · intro g cmap cls h1 h2
    simp [_dynamic_classmap, h1, h2, dget_dinsert_self]
  · intro g g' cmap cls hrid
    have hself : dget (dinsert cmap g.rid cls) g'.rid = some cls := by
      rw [hrid]; exact dget_dinsert_self cmap g.rid cls
    simp [_dynamic_classmap, hself]
  · intro g cmap res cmap2 h i t hit
    unfold _dynamic_classmap at h
    by_cases hc : (dget cmap g.rid).isNone
    · rw [if_pos hc] at h
      cases hcr : r6_createcls g with
      | error e => rw [hcr] at h; cases h
      | ok cls =>
        rw [hcr] at h
        simp only [dget_dinsert_self cmap g.rid cls] at h
        have h2 : cmap2 = dinsert cmap g.rid cls := by
          injection h with h3
          exact (congrArg Prod.snd h3).symm
        subst h2
        have hne : i ≠ g.rid := by
          intro he
          rw [Option.isNone_iff_eq_none] at hc
          rw [he, hc] at hit
          cases hit
        rw [dget_dinsert_ne cmap g.rid i cls (fun he => hne he.symm)]
        exact hit
    · rw [if_neg hc] at h
      cases hg : dget cmap g.rid with
      | none => rw [hg] at h; cases h
      | some c =>
        rw [hg] at h
        have h2 : cmap2 = cmap := by
          injection h with h3
          exact (congrArg Prod.snd h3).symm
        subst h2
        exact hit

/-- C1 witness: resolving the Stack generator on an empty cache builds and
stores `stack_cls`; resolving it again returns the identical stored type
with the cache unchanged. -/
theorem c1_witness :
    _dynamic_classmap stack_gen [] = Except.ok (stack_cls, [(5, stack_cls)]) ∧
    _dynamic_classmap stack_gen [(5, stack_cls)] =
      Except.ok (stack_cls, [(5, stack_cls)]) :=
  ⟨c1_dynamic_classmap_builds_once_and_caches.2.1 stack_gen [] stack_cls rfl rfl,
   c1_dynamic_classmap_builds_once_and_caches.1 stack_gen [(5, stack_cls)] stack_cls rfl⟩

/-- C2: at type-definition time, for every name of the effective table a
forwarder is injected exactly when `attrs` does not already bind that
name: explicitly declared attributes are left untouched (so the injected
forwarder is never stored, hence unreachable for that name), table names
absent from `attrs` get the forwarding implementation chosen by the
table's wrapper, and names outside the table are never touched. -/
theorem c2_injection_fills_only_gaps :
    ∀ (name : RName) (bases : List PyType) (attrs : List (String × PyVal))
      (t : List (String × Wrapper)) (cls : PyType),
      eff_default_attrs bases attrs = some (PyVal.table t) →
      R6Meta_new name bases attrs = Except.ok cls →
      (∀ k, (dget attrs k).isSome → dget cls.tyattrs k = dget attrs k) ∧
      (∀ k w, dget t k = some w → dget attrs k = none →
        dget cls.tyattrs k = some (forward_for t k)) ∧
      (∀ k, dget t k = none → dget cls.tyattrs k = dget attrs k) := by
  intro name bases attrs t cls heff hok
  simp only [R6Meta_new, heff] at hok
  by_cases hcond : (t.map Prod.fst).dedup.length = t.length
  · rw [if_pos hcond] at hok
    cases name with
    | null => cases hok
    | str s =>
      have hcls : cls = PyType.mk s bases (inject_defaults t attrs) := by
        injection hok with h3
        exact h3.symm
      subst hcls
      refine ⟨?_, ?_, ?_⟩
      · intro k hk
        exact inject_defaults_explicit t attrs k hk
      · intro k w ht ha
        exact inject_defaults_missing t attrs k w ht ha
      · intro k ht
        exact inject_defaults_not_in_table t attrs k ht
  · rw [if_neg hcond] at hok
    cases hok

/-- C2 witness: for a class body explicitly declaring `b` under a table
with names `a` (plain) and `b` (property), the created type keeps the
explicit `b` and receives an injected plain forwarder only for `a`. -/
theorem c2_witness :
    dget (PyType.mk "T" []
      ([("__DEFAULT_ATTRS__",
         PyVal.table [("a", Wrapper.plain), ("b", Wrapper.prop)]),
        ("b", PyVal.obj 3)] ++
       [("a", PyVal.plainGetter "a")])).tyattrs "b" = some (PyVal.obj 3) ∧
    dget (PyType.mk "T" []
      ([("__DEFAULT_ATTRS__",
         PyVal.table [("a", Wrapper.plain), ("b", Wrapper.prop)]),
        ("b", PyVal.obj 3)] ++
       [("a", PyVal.plainGetter "a")])).tyattrs "a" =
      some (forward_for [("a", Wrapper.plain), ("b", Wrapper.prop)] "a") := by
  have h := c2_injection_fills_only_gaps (RName.str "T") []
    [("__DEFAULT_ATTRS__", PyVal.table [("a", Wrapper.plain), ("b", Wrapper.prop)]),
     ("b", PyVal.obj 3)]
    [("a", Wrapper.plain), ("b", Wrapper.prop)]
    (PyType.mk "T" []
      ([("__DEFAULT_ATTRS__",
         PyVal.table [("a", Wrapper.plain), ("b", Wrapper.prop)]),
        ("b", PyVal.obj 3)] ++
       [("a", PyVal.plainGetter "a")]))
    rfl rfl
  exact ⟨(h.1 "b" (by decide)).trans rfl, h.2.1 "a" Wrapper.plain rfl rfl⟩

/-- C3: a name occurring among both the public method names and the public
field names is resolved by the synthesized table as a property forward,
because the fields update is applied after the methods update (a name only
among the methods stays a plain forward). -/
theorem c3_field_method_tiebreak :
    ∀ (g : Sexp) (ms fs : List String) (name : String),
      g.public_methods_names = some ms → g.public_fields_names = some fs →
      (name ∈ ms → name ∈ fs →
        dget (_build_attr_dict g) name = some Wrapper.prop) ∧
      (name ∈ ms → name ∉ fs →
        dget (_build_attr_dict g) name = some Wrapper.plain) := by
  intro g ms fs name hm hf
  obtain ⟨rid, rt, rc, cn, pm, pf⟩ := g
  simp only at hm hf
  subst hm
  subst hf
  constructor
  · intro _ hinf
    show dget (dupdate (dupdate [] (ms.map (fun x => (x, Wrapper.plain))))
          (fs.map (fun x => (x, Wrapper.prop)))) name = some Wrapper.prop
    rw [dupdate_map_const, dupdate_map_const]
    exact dget_constfold_mem fs Wrapper.prop _ name hinf
  · intro hinm hninf
    show dget (dupdate (dupdate [] (ms.map (fun x => (x, Wrapper.plain))))
          (fs.map (fun x => (x, Wrapper.prop)))) name = some Wrapper.plain
    rw [dupdate_map_const, dupdate_map_const]
    rw [dget_constfold_not_mem fs Wrapper.prop _ name hninf]
    exact dget_constfold_mem ms Wrapper.plain _ name hinm

/-- C3 witness: the `touch` name of `dual_gen`, a public method and a
public field at once, is mapped to the property wrapper. -/
theorem c3_witness :
    dget (_build_attr_dict dual_gen) "touch" = some Wrapper.prop :=
  (c3_field_method_tiebreak dual_gen ["touch"] ["touch"] "touch" rfl rfl).1
    (by decide) (by decide)

/-- C4: the effective table is the type's own `__DEFAULT_ATTRS__` when the
class body supplies one; otherwise it is the table of the first base (in
order) whose chain declares one — exactly that one table, with no merging,
even when later bases also declare tables; and when neither the body nor
any base declares a table, `R6Meta.__new__` fails with the ValueError that
models the missing-default-table error. -/
theorem c4_effective_table_resolution :
    (∀ (bases : List PyType) (attrs : List (String × PyVal))
       (t : List (String × Wrapper)),
      dget attrs "__DEFAULT_ATTRS__" = some (PyVal.table t) →
      eff_default_attrs bases attrs = some (PyVal.table t)) ∧
    (∀ (front : List PyType) (b : PyType) (back : List PyType)
       (attrs : List (String × PyVal)) (v : PyVal),
      dget attrs "__DEFAULT_ATTRS__" = none →
      (∀ b2 ∈ front, b2.findAttr "__DEFAULT_ATTRS__" = none) →
      b.findAttr "__DEFAULT_ATTRS__" = some v →
      eff_default_attrs (front ++ b :: back) attrs = some v) ∧
    (∀ (name : RName) (bases : List PyType) (attrs : List (String × PyVal)),
      dget attrs "__DEFAULT_ATTRS__" = none →
      (∀ b ∈ bases, b.findAttr "__DEFAULT_ATTRS__" = none) →
      R6Meta_new name bases attrs = Except.error PyErr.valueError) := by
  refine ⟨?_, ?_, ?_⟩
  · intro bases attrs t h
    simp [eff_default_attrs, h]
  · intro front b back attrs v hnone hfront hb
    simp only [eff_default_attrs, hnone]
    rw [first_base_default_attrs_append front (b :: back) hfront]
    simp [first_base_default_attrs, hb]
  · intro name bases attrs hnone hbases
    have heff : eff_default_attrs bases attrs = none := by
      simp only [eff_default_attrs, hnone]
      exact first_base_default_attrs_none bases hbases
    simp [R6Meta_new, heff]

/-- C4 witness: a body-supplied table wins; with no own table the search
over `[SupportsSEXP, R6]` lands on `R6`'s empty table (SupportsSEXP
declares none); and with no table anywhere the metaclass raises the
ValueError. -/
theorem c4_witness :
    eff_default_attrs [R6] [("__DEFAULT_ATTRS__", PyVal.table [("z", Wrapper.plain)])] =
      some (PyVal.table [("z", Wrapper.plain)]) ∧
    eff_default_attrs [SupportsSEXP, R6] [] = some (PyVal.table []) ∧
    R6Meta_new (RName.str "X") [SupportsSEXP] [] = Except.error PyErr.valueError := by
  refine ⟨?_, ?_, ?_⟩
  · exact c4_effective_table_resolution.1 [R6] _ [("z", Wrapper.plain)] rfl
  · exact c4_effective_table_resolution.2.1 [SupportsSEXP] R6 [] [] (PyVal.table [])
      rfl (by intro b2 hb; rw [List.mem_singleton.mp hb]; rfl) rfl
  · exact c4_effective_table_resolution.2.2 (RName.str "X") [SupportsSEXP] []
      rfl (by intro b hb; rw [List.mem_singleton.mp hb]; rfl)

/-- C5: the code bug behind this claim. `R6ClassGenerator.__init__` never
calls `is_r6classgenerator` (its TODO comment admits the missing check),
so wrapping a plain R environment — which fails the class-generator
predicate — succeeds instead of failing with a not-a-class-generator
error; indeed the module defines no such exception to raise. -/
theorem c5_construction_skips_generator_check :
    is_r6classgenerator plain_env_handle = false ∧
    R6ClassGenerator_init CMapPolicy.static plain_env_handle [] =
      Except.ok ({ robj := plain_env_handle, __R6CLASS__ := R6, new := R6 }, []) :=
  ⟨rfl, rfl⟩

/-- C6 counterexample: class synthesis crashes rather than substituting an
anonymous placeholder name — an empty classname vector fails the
`len(res) == 1` assertion, and an R NULL classname is passed through to
`type.__new__`, which rejects the non-string name. -/
theorem c6_counterexample :
    r6_createcls g_empty_classname = Except.error PyErr.assertionError ∧
    r6_createcls g_null_classname = Except.error PyErr.typeError :=
  ⟨rfl, rfl⟩

/-- C6 amended: for every class-generator handle, an empty (zero-length)
classname vector makes synthesis fail the length-1 assertion, and a null
classname is returned unchanged by `_classname` and then rejected as a
type name, so synthesis crashes; no anonymous placeholder is ever
substituted. -/
theorem c6_amended_synthesis_crashes :
    ∀ g : Sexp,
      (g.classname = RValue.strVec [] →
        r6_createcls g = Except.error PyErr.assertionError) ∧
      (g.classname = RValue.null →
        r6_createcls g = Except.error PyErr.typeError) := by
  intro g
  obtain ⟨rid, rt, rc, cn, pm, pf⟩ := g
  constructor
  · intro h
    simp only at h
    subst h
    rfl
  · intro h
    simp only at h
    subst h
    have hno := build_attr_dict_keys_nodup ⟨rid, rt, rc, RValue.null, pm, pf⟩
    show R6Meta_new RName.null [R6]
      [("__DEFAULT_ATTRS__",
        PyVal.table (_build_attr_dict ⟨rid, rt, rc, RValue.null, pm, pf⟩)),
       ("__R6CLASSGENERATOR__", PyVal.rsexp ⟨rid, rt, rc, RValue.null, pm, pf⟩),
       ("__doc__", PyVal.str (mapped_r6_doc RName.null)),
       ("__init__", PyVal.pyFunc "_r6__init__")] = Except.error PyErr.typeError
    exact R6Meta_new_null_name _ _ _ (eff_default_attrs_head _ _ _) hno

/-- C6 witness: the amended claim at two further concrete handles (with
nonempty method/field collections). -/
theorem c6_witness :
    r6_createcls g_empty_classname2 = Except.error PyErr.assertionError ∧
    r6_createcls g_null_classname2 = Except.error PyErr.typeError :=
  ⟨(c6_amended_synthesis_crashes g_empty_classname2).1 rfl,
   (c6_amended_synthesis_crashes g_null_classname2).2 rfl⟩

/-- C7: the static policy returns the cached type when the identity is a
key of the map and the fixed fallback `R6` otherwise; `_static_classmap`
is a total pure read (it can neither raise nor write), and the
generator-proxy construction under the static policy returns the threaded
cache unchanged. -/
theorem c7_static_lookup_or_fallback :
    (∀ (g : Sexp) (cmap : ClassMap) (t : PyType),
      dget cmap g.rid = some t → _static_classmap g cmap = t) ∧
    (∀ (g : Sexp) (cmap : ClassMap),
      dget cmap g.rid = none → _static_classmap g cmap = R6) ∧
    (∀ (robj : Sexp) (cmap : ClassMap), robj.rtypeof = RType.envsxp →
      R6ClassGenerator_init CMapPolicy.static robj cmap =
        Except.ok ({ robj := robj,
                     __R6CLASS__ := _static_classmap robj cmap,
                     new := _static_classmap robj cmap }, cmap)) := by
  refine ⟨?_, ?_, ?_⟩
  · intro g cmap t h
    simp [_static_classmap, h]
  · intro g cmap h
    simp [_static_classmap, h]
  · intro robj cmap h
    simp [R6ClassGenerator_init, h]

/-- C7 witness: an unseen identity falls back to `R6`; a seen identity
returns its cached class; the init flow leaves the empty cache empty. -/
theorem c7_witness :
    _static_classmap stack_gen [] = R6 ∧
    _static_classmap stack_gen [(5, stack_cls)] = stack_cls ∧
    R6ClassGenerator_init CMapPolicy.static stack_gen [] =
      Except.ok ({ robj := stack_gen, __R6CLASS__ := R6, new := R6 }, []) :=
  ⟨c7_static_lookup_or_fallback.2.1 stack_gen [] rfl,
   c7_static_lookup_or_fallback.1 stack_gen [(5, stack_cls)] stack_cls rfl,
   c7_static_lookup_or_fallback.2.2 stack_gen [] rfl⟩

/-- C8: `_r6__init__` binds `__ROBJECT__` to the handle obtained from the
foreign constructor and does nothing else — an `R6Instance` consists of
exactly that one owned handle — and none of the instance operations of
class `R6` rebinds it: the `__sexp__` setter mutates the foreign content
of the owned handle but returns the instance with the same binding, and
the `__sexp__` getter and the injected `dollar_getter` forwarders are pure
reads of the foreign state. -/
theorem c8_owned_handle_set_once :
    (∀ (generatorHandle : Nat) (args : List Nat) (st : RState),
      _r6__init__ generatorHandle args st =
        { __ROBJECT__ := st.newOf generatorHandle args }) ∧
    (∀ i : R6Instance, i = { __ROBJECT__ := i.__ROBJECT__ }) ∧
    (∀ (self : R6Instance) (value : Nat) (st : RState),
      (r6_sexp_setter self value st).1 = self) ∧
    (∀ (self : R6Instance) (st : RState),
      r6_sexp_getter self st = st.sexpOf self.__ROBJECT__) ∧
    (∀ (name : String) (obj : R6Instance) (st : RState),
      dollar_getter name obj st = st.attrOf obj.__ROBJECT__ name) :=
  ⟨fun _ _ _ => rfl, fun _ => rfl, fun _ _ _ => rfl, fun _ _ => rfl,
   fun _ _ _ => rfl⟩

/-- C9: an absent (`NULL`) public-methods or public-fields collection is
treated by `_build_attr_dict` exactly like an empty one (no error is
possible — the function is total); a generator with both collections
absent and a well-formed name synthesizes a class whose table is empty and
whose own attributes are just the four bookkeeping entries; and on any
class based on `[R6]`, every name not among the own attributes resolves to
whatever `R6` provides — only inherited attributes are usable. -/
theorem c9_absent_collections_are_empty :
    (∀ g : Sexp, g.public_methods_names = none →
      _build_attr_dict g = _build_attr_dict { g with public_methods_names := some [] }) ∧
    (∀ g : Sexp, g.public_fields_names = none →
      _build_attr_dict g = _build_attr_dict { g with public_fields_names := some [] }) ∧
    (∀ (rid : Nat) (rt : RType) (rc : List String) (s : String),
      r6_createcls ⟨rid, rt, rc, RValue.strVec [s], none, none⟩ =
        Except.ok (PyType.mk s [R6]
          [("__DEFAULT_ATTRS__", PyVal.table []),
           ("__R6CLASSGENERATOR__",
            PyVal.rsexp ⟨rid, rt, rc, RValue.strVec [s], none, none⟩),
           ("__doc__", PyVal.str (mapped_r6_doc (RName.str s))),
           ("__init__", PyVal.pyFunc "_r6__init__")])) ∧
    (∀ (cls : PyType) (k : String), cls.tybases = [R6] → dget cls.tyattrs k = none →
      cls.findAttr k = R6.findAttr k) := by
  refine ⟨?_, ?_, ?_, ?_⟩
  · intro g h
    obtain ⟨rid, rt, rc, cn, pm, pf⟩ := g
    simp only at h
    subst h
    rfl
  · intro g h
    obtain ⟨rid, rt, rc, cn, pm, pf⟩ := g
    simp only at h
    subst h
    cases pm <;> rfl
  · intro rid rt rc s
    rfl
  · intro cls k hb ha
    obtain ⟨n, b, a⟩ := cls
    simp only [PyType.tybases] at hb
    simp only [PyType.tyattrs] at ha
    subst hb
    simp only [PyType.findAttr, ha]
    exact findAttrFirst_singleton R6 k

/-- C9 witness: the bare generator (no public fields, no public methods)
yields a class with an empty table and only the bookkeeping attributes,
and an arbitrary other name (`__ROBJECT__`) resolves through the base
`R6`. -/
theorem c9_witness :
    r6_createcls bare_gen =
      Except.ok (PyType.mk "Bare" [R6]
        [("__DEFAULT_ATTRS__", PyVal.table []),
         ("__R6CLASSGENERATOR__", PyVal.rsexp bare_gen),
         ("__doc__", PyVal.str (mapped_r6_doc (RName.str "Bare"))),
         ("__init__", PyVal.pyFunc "_r6__init__")]) ∧
    (PyType.mk "Bare" [R6]
        [("__DEFAULT_ATTRS__", PyVal.table []),
         ("__R6CLASSGENERATOR__", PyVal.rsexp bare_gen),
         ("__doc__", PyVal.str (mapped_r6_doc (RName.str "Bare"))),
         ("__init__", PyVal.pyFunc "_r6__init__")]).findAttr "__ROBJECT__" =
      R6.findAttr "__ROBJECT__" :=
  ⟨c9_absent_collections_are_empty.2.2.1 3 RType.envsxp ["R6ClassGenerator"] "Bare",
   c9_absent_collections_are_empty.2.2.2 _ "__ROBJECT__" rfl rfl⟩

/-- C10: the metaclass assertion that the effective table has as many
distinct names as entries holds whenever the table's keys are free of
duplicates — which every Python dict guarantees by construction, and
which the tables this module actually builds satisfy: `_build_attr_dict`
output and the two literal tables — so `R6Meta.__new__` can never fail
with the duplicate-name AssertionError. -/
theorem c10_duplicate_branch_unreachable :
    (∀ (name : RName) (bases : List PyType) (attrs : List (String × PyVal)),
      (∀ t, eff_default_attrs bases attrs = some (PyVal.table t) →
        (t.map Prod.fst).Nodup) →
      R6Meta_new name bases attrs ≠ Except.error PyErr.assertionError) ∧
    (∀ g : Sexp, ((_build_attr_dict g).map Prod.fst).Nodup) ∧
    (R6ClassGenerator_DEFAULT_ATTRS.map Prod.fst).Nodup ∧
    ((([] : List (String × Wrapper))).map Prod.fst).Nodup := by
  refine ⟨?_, build_attr_dict_keys_nodup, by decide, by decide⟩
  intro name bases attrs hnodup
  unfold R6Meta_new
  cases heff : eff_default_attrs bases attrs with
  | none => simp
  | some v =>
    cases v with
    | pyNone => simp
    | obj n => simp
    | str s => simp
    | rsexp g => simp
    | plainGetter n => simp
    | propGetter n => simp
    | pyFunc n => simp
    | table t =>
      show (if (t.map Prod.fst).dedup.length = t.length then
              match name with
              | RName.str s => Except.ok (PyType.mk s bases (inject_defaults t attrs))
              | RName.null => Except.error PyErr.typeError
            else Except.error PyErr.assertionError) ≠ Except.error PyErr.assertionError
      rw [if_pos (dedup_keys_length t (hnodup t heff))]
      cases name <;> simp

/-- C10 witness: the assertion-avoidance theorem applied to a concrete
nontrivial table, and the nodup property at the Stack generator's table. -/
theorem c10_witness :
    R6Meta_new (RName.str "W") []
      [("__DEFAULT_ATTRS__", PyVal.table [("x", Wrapper.plain)])] ≠
      Except.error PyErr.assertionError ∧
    ((_build_attr_dict stack_gen).map Prod.fst).Nodup := by
  constructor
  · apply c10_duplicate_branch_unreachable.1 (RName.str "W") []
      [("__DEFAULT_ATTRS__", PyVal.table [("x", Wrapper.plain)])]
    intro t ht
    have h0 : eff_default_attrs []
        [("__DEFAULT_ATTRS__", PyVal.table [("x", Wrapper.plain)])] =
        some (PyVal.table [("x", Wrapper.plain)]) := rfl
    rw [h0] at ht
    injection ht with h1
    injection h1 with h2
    subst h2
    decide
  · exact c10_duplicate_branch_unreachable.2.1 stack_gen

end RpyR6
